import Mathlib

/-!
Verification of the retrieval-grounded judgment pipeline of the
NHBank_AI whistle-blower backend (src/retriever/search.py,
src/agent/chat_manager.py, src/agent/orchestrator.py, src/judge/types.py),
shallowly embedded in Lean.

Conventions of the embedding:
* Python strings are Lean `String`s; a Python string is a sequence of
  code points, exactly `String.data`.
* Python `str.join`, `in`, `strip`, `split` are modelled by `pyJoin`,
  `pyIn`, `pyStrip`, `pySplitWS` below, each following CPython semantics.
* Python floats carry no arithmetic in the verified code paths; they are
  modelled as rationals (`Rat`), with a two-decimal rendering `fmt2`
  standing in for the format specifier `:.2f` (the rounding mode of the
  last digit is immaterial to every property proved here).
* The external collaborators (Chroma similarity search, the OpenAI chat
  completion endpoint) are parameters of the embedded functions: the
  similarity provider has type `Sim`, a free-text oracle has type
  `String → String`, and the strict-JSON judgment oracle has type
  `String → Except String JValue` (where `Except.error e` models
  `json.loads` raising `JSONDecodeError` with message `e`).
-/

/-- Python `sep.join(parts)`. -/
def pyJoin (sep : String) : List String → String
  | [] => ""
  | [a] => a
  | a :: b :: rest => a ++ sep ++ pyJoin sep (b :: rest)

/-- Contiguous-sublist test on code points, `needle ∈ hay`. -/
def listIn (needle : List Char) : List Char → Bool
  | [] => needle.isEmpty
  | c :: cs => needle.isPrefixOf (c :: cs) || listIn needle cs

/-- Python `needle in hay` on strings (contiguous substring). -/
def pyIn (needle hay : String) : Bool :=
  listIn needle.data hay.data

/-- Python `str.strip()` on code points. -/
def pyStripL (l : List Char) : List Char :=
  ((l.dropWhile Char.isWhitespace).reverse.dropWhile Char.isWhitespace).reverse

/-- Python `str.strip()`. -/
def pyStrip (s : String) : String :=
  String.mk (pyStripL s.data)

/-- Accumulator form of `str.split()` (split on whitespace runs, drop empties). -/
def pySplitWSAux : List Char → List Char → List (List Char)
  | [], acc => if acc.isEmpty then [] else [acc.reverse]
  | c :: cs, acc =>
      if c.isWhitespace then
        if acc.isEmpty then pySplitWSAux cs [] else acc.reverse :: pySplitWSAux cs []
      else pySplitWSAux cs (c :: acc)

/-- Python `str.split()` with no arguments. -/
def pySplitWS (s : String) : List (List Char) :=
  pySplitWSAux s.data []

/-- `len(content.split())`: the whitespace-delimited token count used by
`RAGRetriever.get_context` to measure the budget. -/
def pyTokenCount (s : String) : Nat :=
  (pySplitWS s).length

/-- Python truthiness of an optional string (`None` and `""` are falsy). -/
def pyTruthy : Option String → Bool
  | none => false
  | some s => !(s == "")

/-- Python `str(bool)` rendering, used by the report formatter through
an f-string. -/
def pyBoolStr : Bool → String
  | true => "True"
  | false => "False"

/-- Two-decimal rendering of a rational, standing in for Python `:.2f`:
`Int.fdiv (num * 100) den` is the floor of `q * 100`, so this renders
`q` to two decimals (the rounding mode of the final digit is immaterial
to every property proved here). -/
def fmt2 (q : Rat) : String :=
  let n : Int := Int.fdiv (q.num * 100) (q.den : Int)
  let sign := if n < 0 then "-" else ""
  let m := n.natAbs
  sign ++ toString (m / 100) ++ "." ++
    (if m % 100 < 10 then "0" else "") ++ toString (m % 100)

/-- Python tuple-unpacking `a, b = s` of a string `s` into two targets:
it succeeds exactly when the string has two characters (yielding two
one-character strings) and raises `ValueError` otherwise. This is the
operation `Orchestrator.process_message` performs on the value returned
by `ChatManager.process_message` (src/agent/orchestrator.py line 43). -/
def pyUnpack2 (s : String) : Except String (String × String) :=
  match s.data with
  | [a, b] => Except.ok (String.mk [a], String.mk [b])
  | _ =>
      Except.error ("ValueError: cannot unpack string of length " ++
        toString s.data.length ++ " into 2 values")

/-! ## Retriever (src/retriever/search.py) -/

/-- A document held by the vector store: page content plus the
`source` metadata field (populated from `doc_id` by `_load_documents`). -/
structure VDoc where
  page_content : String
  source : String
deriving Repr, DecidableEq

/-- `RAGRetriever.search` result record (src/retriever/search.py lines 26-32). -/
structure SearchResult where
  content : String
  source : String
  score : Rat
deriving Repr, DecidableEq

/-- The opaque similarity provider
(`Chroma.similarity_search_with_relevance_scores`): query, `k`, optional
`source` filter ↦ scored documents, most relevant first. -/
abbrev Sim : Type :=
  String → Nat → Option String → List (VDoc × Rat)

/-- `RAGRetriever.search` (src/retriever/search.py lines 125-151): if the
vector store is unavailable (`None`) return `[]`, otherwise delegate to
the similarity provider (`k` and the exact-match `source` filter are
applied by the provider) and repackage each scored document. -/
def RAGRetriever.search (vectorstore : Option Sim) (query : String)
    (k : Nat) (doc_id : Option String) : List SearchResult :=
  match vectorstore with
  | none => []
  | some sim =>
      (sim query k doc_id).map (fun p =>
        { content := p.1.page_content, source := p.1.source, score := p.2 })

/-- One labeled context block of `RAGRetriever.get_context`
(source, relevance to two decimals, content). -/
def contextBlock (r : SearchResult) : String :=
  "\n출처: " ++ r.source ++ "\n" ++ "관련도: " ++ fmt2 r.score ++ "\n" ++
    "내용: " ++ r.content ++ "\n"

/-- The block-accumulation loop of `RAGRetriever.get_context`
(src/retriever/search.py lines 167-178): walk the results in order,
breaking at the first passage whose whitespace-token count would push the
running total over `max_tokens`; an included passage adds its token count
to the total. -/
def contextBlocks (max_tokens : Nat) (total : Nat) :
    List SearchResult → List String
  | [] => []
  | r :: rs =>
      let t := pyTokenCount r.content
      if max_tokens < total + t then []
      else contextBlock r :: contextBlocks max_tokens (total + t) rs

/-- The debug wrapper `RAGRetriever.get_context` puts around the real
context (src/retriever/search.py lines 182-190). -/
def debugWrap (num_results : Nat) (real_context : String) : String :=
  "--- DEBUG START ---\n" ++
  "Search found " ++ toString num_results ++ " results.\n" ++
  "The generated context is:\n" ++
  "vvvvvvvvvvvvvvvvvvvv\n" ++
  real_context ++ "\n" ++
  "^^^^^^^^^^^^^^^^^^^^\n" ++
  "--- DEBUG END ---\n"

/-- `RAGRetriever.get_context` (src/retriever/search.py lines 161-192):
search with the default `k = 5`, include whole blocks while the
cumulative whitespace-token count stays within `max_tokens`, join with
newlines, and return the debug-wrapped context.  Totality of this
function mirrors the code path: an unavailable store short-circuits to
an empty result list instead of raising. -/
def RAGRetriever.get_context (vectorstore : Option Sim) (query : String)
    (doc_id : Option String) (max_tokens : Nat := 2000) : String :=
  let results := RAGRetriever.search vectorstore query 5 doc_id
  let real_context := pyJoin "\n" (contextBlocks max_tokens 0 results)
  debugWrap results.length real_context

/-- Token-count sum of a result list. -/
def tokSum (rs : List SearchResult) : Nat :=
  (rs.map (fun r => pyTokenCount r.content)).sum

/-! ## Document-reference extraction (src/agent/chat_manager.py lines 92-106)

`ChatManager._extract_doc_id_from_message` runs
`re.search(r'["“]([^"”]+\.pdf)["”]|["“]([^"”]+)["”]|(\S+\.pdf)', message)`
and returns the first non-None group.  `re.search` scans start positions
left to right and, at each position, tries the three alternatives in
order.  The model below reproduces this: `alt1At`/`alt2At`/`alt3At` are
the three alternatives anchored at the head of the remaining character
list (with the greedy/backtracking behaviour of `[^"”]+` and `\S+`
resolved as CPython does), `altsAt` applies the in-pattern alternative
order, and `reSearchDoc` is the left-to-right position scan. -/

/-- Member of the character class `["“]` (opening-quote alternatives). -/
def isOpenQuote (c : Char) : Bool :=
  c == '"' || c == '“'

/-- Member of the character class `["”]` (closing-quote alternatives). -/
def isCloseQuote (c : Char) : Bool :=
  c == '"' || c == '”'

/-- Member of the character class `[^"”]`. -/
def isContentChar (c : Char) : Bool :=
  !(c == '"' || c == '”')

/-- The code points of the literal `.pdf`. -/
def pdfSuffix : List Char :=
  ['.', 'p', 'd', 'f']

/-- Alternative 1, `["“]([^"”]+\.pdf)["”]`, anchored at the head: an
opening quote, then the maximal run of non-quote characters — which the
backtracking engine accepts exactly when it has at least five characters
and ends in `.pdf` — then a closing quote.  Returns group 1 (the run). -/
def alt1At : List Char → Option String
  | [] => none
  | c :: rest =>
      if isOpenQuote c then
        let run := rest.takeWhile isContentChar
        match rest.dropWhile isContentChar with
        | d :: _ =>
            if isCloseQuote d && decide (5 ≤ run.length) &&
                pdfSuffix.isSuffixOf run then
              some (String.mk run)
            else none
        | [] => none
      else none

/-- Alternative 2, `["“]([^"”]+)["”]`, anchored at the head: an opening
quote, a nonempty run of non-quote characters, a closing quote.
Returns group 2 (the run). -/
def alt2At : List Char → Option String
  | [] => none
  | c :: rest =>
      if isOpenQuote c then
        let run := rest.takeWhile isContentChar
        match rest.dropWhile isContentChar with
        | d :: _ => if isCloseQuote d && !run.isEmpty then some (String.mk run) else none
        | [] => none
      else none

/-- Whether `\S+\.pdf` matches at the head with `\S+` consuming `n`
characters: `n ≥ 1` non-whitespace characters followed by the literal
`.pdf`. -/
def alt3Valid (cs : List Char) (n : Nat) : Bool :=
  decide (1 ≤ n) && (cs.take n).all (fun c => !c.isWhitespace) &&
    ((cs.drop n).take 4 == pdfSuffix)

/-- Alternative 3, `(\S+\.pdf)`, anchored at the head; the greedy `\S+`
takes the largest admissible `n`.  Returns group 3 (the whole match). -/
def alt3At (cs : List Char) : Option String :=
  match ((List.range (cs.length + 1)).filter (alt3Valid cs)).getLast? with
  | some n => some (String.mk (cs.take (n + 4)))
  | none => none

/-- The three alternatives at one start position, in pattern order. -/
def altsAt (cs : List Char) : Option String :=
  match alt1At cs with
  | some g => some g
  | none =>
      match alt2At cs with
      | some g => some g
      | none => alt3At cs

/-- The `re.search` position scan: try each start position from the left,
return the first position where some alternative matches. -/
def reSearchDoc : List Char → Option String
  | [] => none
  | c :: cs =>
      match altsAt (c :: cs) with
      | some g => some g
      | none => reSearchDoc cs

/-- `ChatManager._extract_doc_id_from_message` (lines 92-99). -/
def extract_doc_id_from_message (message : String) : Option String :=
  reSearchDoc message.data

/-- The code points of the literal `출처: ` looked for by
`_extract_doc_id_from_context`. -/
def sourceMarker : List Char :=
  "출처: ".data

/-- Position scan of `re.search(r"출처: (.+)", context)`: at the first
position where the literal marker is followed by at least one
non-newline character, the greedy `(.+)` takes everything up to the next
newline; the result is then `.strip()`ped. -/
def reSearchCtx : List Char → Option String
  | [] => none
  | c :: cs =>
      if sourceMarker.isPrefixOf (c :: cs) then
        let grp := ((c :: cs).drop sourceMarker.length).takeWhile (fun d => !(d == '\n'))
        if grp.isEmpty then reSearchCtx cs
        else some (String.mk (pyStripL grp))
      else reSearchCtx cs

/-- `ChatManager._extract_doc_id_from_context` (lines 101-106). -/
def extract_doc_id_from_context (context : String) : Option String :=
  reSearchCtx context.data

/-! ## Judge data model (src/judge/types.py) -/

/-- `SEVERITY_LABELS` (src/judge/types.py lines 6-11): the canonical
severity → Korean label table. -/
def SEVERITY_LABELS : List (Int × String) :=
  [(0, "규정 위반 없음"),
   (1, "경미한 위반 (주의 또는 교육 필요)"),
   (2, "중대한 위반 (조사 또는 감사 필요)"),
   (3, "심각한 위반 (즉시 처분 또는 법적 조치 필요)")]

/-- `SEVERITY_LABELS[n]` as a dictionary lookup. -/
def severityLabelFor (n : Int) : Option String :=
  (SEVERITY_LABELS.find? (fun p => p.1 == n)).map (fun p => p.2)

/-- `PolicyLink` (src/judge/types.py lines 13-17). -/
structure PolicyLink where
  doc_id : String
  «section» : String
  sentence : String
deriving Repr, DecidableEq

/-- `JudgeDecision` (src/judge/types.py lines 19-28).  Note: the pydantic
model constrains only the presence and the type of each field; the 0-3
range for `severity` and the `[0,1]` range for `confidence` appear in
field descriptions only and are not validated. -/
structure JudgeDecision where
  violation_type : List String
  severity : Int
  severity_label : String
  recommended_actions : List String
  rationale : String
  policy_links : List PolicyLink
  confidence : Rat
  needs_more_evidence : Bool
deriving Repr, DecidableEq

/-- JSON values, the shape of parsed oracle output handed to
`JudgeDecision.model_validate`. -/
inductive JValue where
  | str (s : String)
  | int (n : Int)
  | num (q : Rat)
  | bool (b : Bool)
  | arr (xs : List JValue)
  | obj (fields : List (String × JValue))
  | null
deriving Repr

/-- Required-field lookup of pydantic validation: a missing key is a
`Field required` validation error. -/
def jGet (fields : List (String × JValue)) (key : String) : Except String JValue :=
  match fields.find? (fun p => p.1 == key) with
  | some p => Except.ok p.2
  | none => Except.error ("Field required: " ++ key)

/-- pydantic `str` field check. -/
def asStr : JValue → Except String String
  | JValue.str s => Except.ok s
  | _ => Except.error "Input should be a valid string"

/-- pydantic `int` field check (lax mode also accepts an integral
float; string-to-number coercion is not modelled, no claim depends on it). -/
def asInt : JValue → Except String Int
  | JValue.int n => Except.ok n
  | JValue.num q => if q.den == 1 then Except.ok q.num else Except.error "Input should be a valid integer"
  | _ => Except.error "Input should be a valid integer"

/-- pydantic `float` field check (accepts ints). -/
def asRat : JValue → Except String Rat
  | JValue.num q => Except.ok q
  | JValue.int n => Except.ok (n : Rat)
  | _ => Except.error "Input should be a valid number"

/-- pydantic `bool` field check. -/
def asBool : JValue → Except String Bool
  | JValue.bool b => Except.ok b
  | _ => Except.error "Input should be a valid boolean"

/-- pydantic `List[str]` field check. -/
def asStrList : JValue → Except String (List String)
  | JValue.arr xs => xs.mapM asStr
  | _ => Except.error "Input should be a valid list"

/-- pydantic validation of one `PolicyLink` object. -/
def asPolicyLink : JValue → Except String PolicyLink
  | JValue.obj fs => do
      let d ← jGet fs "doc_id" >>= asStr
      let s ← jGet fs "section" >>= asStr
      let t ← jGet fs "sentence" >>= asStr
      Except.ok { doc_id := d, «section» := s, sentence := t }
  | _ => Except.error "Input should be a valid dictionary"

/-- pydantic `List[PolicyLink]` field check. -/
def asPolicyLinkList : JValue → Except String (List PolicyLink)
  | JValue.arr xs => xs.mapM asPolicyLink
  | _ => Except.error "Input should be a valid list"

/-- `JudgeDecision.model_validate` (pydantic): every field is required
and type-checked; no range constraint is applied to `severity` or
`confidence`, and no consistency constraint ties `severity_label` to
`severity`. -/
def validateJudgeDecision : JValue → Except String JudgeDecision
  | JValue.obj fs => do
      let vt ← jGet fs "violation_type" >>= asStrList
      let sev ← jGet fs "severity" >>= asInt
      let sl ← jGet fs "severity_label" >>= asStr
      let ra ← jGet fs "recommended_actions" >>= asStrList
      let rat ← jGet fs "rationale" >>= asStr
      let pl ← jGet fs "policy_links" >>= asPolicyLinkList
      let cf ← jGet fs "confidence" >>= asRat
      let nme ← jGet fs "needs_more_evidence" >>= asBool
      Except.ok { violation_type := vt, severity := sev, severity_label := sl,
                  recommended_actions := ra, rationale := rat, policy_links := pl,
                  confidence := cf, needs_more_evidence := nme }
  | _ => Except.error "Input should be a valid dictionary"

/-- Builder for a JSON object in the shape the judge oracle is asked to
produce, with every field well-typed (used to state what validation
accepts). -/
def decisionJson (vt : List String) (sev : Int) (sl : String)
    (ra : List String) (rat : String) (pl : List PolicyLink)
    (cf : Rat) (nme : Bool) : JValue :=
  JValue.obj
    [("violation_type", JValue.arr (vt.map JValue.str)),
     ("severity", JValue.int sev),
     ("severity_label", JValue.str sl),
     ("recommended_actions", JValue.arr (ra.map JValue.str)),
     ("rationale", JValue.str rat),
     ("policy_links", JValue.arr (pl.map (fun l =>
        JValue.obj [("doc_id", JValue.str l.doc_id),
                    ("section", JValue.str l.«section»),
                    ("sentence", JValue.str l.sentence)]))),
     ("confidence", JValue.num cf),
     ("needs_more_evidence", JValue.bool nme)]

/-! ## Prompts (src/judge/prompts.py) -/

/-- `SYSTEM_PROMPT` (src/judge/prompts.py lines 8-26), verbatim
(trailing spaces of the first two source lines included). -/
def SYSTEM_PROMPT : String :=
  "당신은 농협은행의 내부고발 접수 및 평가를 담당하는 AI 법률 상담가입니다. 당신은 실시간으로 내부 규정 및 문서를 \n" ++
  "검색하여 그 내용을 바탕으로 답변을 생성할 수 있습니다. 사용자가 당신의 정보 출처에 대해 물으면, 특정 내부 문서를 통째로 \x27학습\x27한 것이 아니라, \n" ++
  "질문에 가장 관련성 높은 규정을 실시간으로 \x27참조\x27하여 답변한다고 설명해야 합니다.\n" ++
  "\n" ++
  "다음과 같은 원칙을 준수해야 합니다:\n" ++
  "\n" ++
  "1. 공정하고 객관적인 태도로 상담을 진행합니다\n" ++
  "2. 필요한 증거와 정보를 철저히 수집합니다\n" ++
  "3. 제공되는 관련 법규와 규정을 최우선으로 참조하여 판단합니다\n" ++
  "4. 개인정보 보호를 준수합니다\n" ++
  "5. 윤리적 기준을 엄격히 적용합니다\n" ++
  "\n" ++
  "상담 과정에서는 다음 사항을 반드시 확인하십시오:\n" ++
  "- 구체적인 사실관계\n" ++
  "- 관련된 직원 또는 부서\n" ++
  "- 사건 발생 시기와 기간\n" ++
  "- 가능한 증거자료의 존재 여부\n" ++
  "- 내부 보고 시도 여부\n"

/-- `INITIAL_GREETING` (src/judge/prompts.py lines 27-31), verbatim. -/
def INITIAL_GREETING : String :=
  "안녕하세요. 농협은행 내부고발 상담 시스템입니다.\n" ++
  "어떤 사안에 대해 상담을 원하시나요? \n" ++
  "구체적인 상황을 설명해 주시면 도움을 드리도록 하겠습니다.\n" ++
  "\n" ++
  "모든 상담 내용은 철저히 비밀이 보장되며, 신고자의 신분은 보호됩니다."

/-- `JUDGE_PROMPT_TEMPLATE.format(...)` (src/judge/prompts.py lines
34-67): the structured-output judgment prompt with the four placeholders
substituted. -/
def JUDGE_PROMPT_TEMPLATE_fmt (chat_history evidence policy_context schema : String) : String :=
  "\n# ROLE\n당신은 은행 내부고발 사건에 대해 제공된 규정과 루브릭에 따라 \x27최종 판정(Judge)\x27을 내리는 AI 전문가입니다.\n" ++
  "모든 응답은 반드시 JSON 형식으로만 출력해야 하며, 다른 설명이나 서론을 포함해서는 안 됩니다.\n\n" ++
  "# CONTEXT\n사용자와의 대화 내용, 제출된 증거, 그리고 관련 규정(Policy)이 아래에 제공됩니다.\n" ++
  "이를 종합적으로 분석하여 최종 판정을 내려주세요.\n\n" ++
  "[대화 내용]\n" ++ chat_history ++ "\n\n" ++
  "[제출된 증거]\n" ++ evidence ++ "\n\n" ++
  "[관련 규정]\n" ++ policy_context ++ "\n\n" ++
  "# INSTRUCTIONS\n주어진 모든 정보를 바탕으로, 다음 JSON 스키마에 따라 최종 판정 결과를 작성하세요.\n" ++
  "- `violation_type`: 위반 유형을 명확히 식별하세요. (예: \"배임/횡령\", \"불법 대출 실행\")\n" ++
  "- `severity`: 사안의 중대성을 0에서 3 사이의 정수로 평가하세요. (0: 위반 없음, 1: 경미, 2: 중대, 3: 심각)\n" ++
  "- `severity_label`: `severity` 점수에 해당하는 루브릭 레이블을 명시하세요.\n" ++
  "- `recommended_actions`: 위반 사항에 대한 구체적이고 실행 가능한 조치를 2~3가지 권고하세요.\n" ++
  "- `rationale`: 판정의 핵심 근거를 2-3문장으로 요약하세요. **왜 그렇게 판단했는지 명확히 설명해야 합니다.**\n" ++
  "- `policy_links`: `rationale`의 근거가 된 **관련 규정의 `doc_id`, `section`, 그리고 핵심 `sentence`를 정확히** 찾아 명시하세요. 이것은 매우 중요합니다.\n" ++
  "- `confidence`: 전체적인 판정에 대한 당신의 신뢰도를 0.0에서 1.0 사이의 소수점으로 표현하세요.\n" ++
  "- `needs_more_evidence`: 판정을 내리기에 정보가 불충분하다고 판단되면 `true`로 설정하세요.\n\n" ++
  "# OUTPUT SCHEMA\n```json\n" ++ schema ++ "\n```\n"

/-! ## Conversation state and chat manager (src/agent/chat_manager.py) -/

/-- A chat message (src/agent/chat_manager.py lines 28-32). -/
structure Message where
  role : String
  content : String
deriving Repr, DecidableEq

/-- `ConversationState` (src/agent/chat_manager.py lines 35-39);
`turn_count` defaults to 0 and is only ever incremented, so `Nat`. -/
structure ConversationState where
  messages : List Message
  turn_count : Nat := 0
deriving Repr, DecidableEq

/-- The `ChatManager.conversation_states` dict, as an association list
keyed by conversation id (first binding wins on lookup; keys are kept
distinct by construction). -/
abbrev ConvMap : Type :=
  List (String × ConversationState)

/-- Dict lookup. -/
def lookupConv (m : ConvMap) (id : String) : Option ConversationState :=
  match m.find? (fun p => p.1 == id) with
  | some p => some p.2
  | none => none

/-- Write-back of the (mutated-in-place in Python) state for a key. -/
def updateConv (m : ConvMap) (id : String) (st : ConversationState) : ConvMap :=
  match m with
  | [] => []
  | p :: rest => if p.1 == id then (id, st) :: rest else p :: updateConv rest id st

/-- `ChatManager._get_or_create_state` (lines 50-56): create the state
lazily on first access, seeded with the system prompt and `turn_count = 0`. -/
def get_or_create_state (m : ConvMap) (conversation_id : String) :
    ConvMap × ConversationState :=
  match lookupConv m conversation_id with
  | some st => (m, st)
  | none =>
      let st : ConversationState :=
        { messages := [{ role := "system", content := SYSTEM_PROMPT }] }
      ((conversation_id, st) :: m, st)

/-- `ChatManager.start_conversation` (lines 58-62): fetch-or-create the
state, append the fixed greeting as an assistant message, return the
greeting. -/
def start_conversation (m : ConvMap) (conversation_id : String) :
    ConvMap × String :=
  let (m1, st) := get_or_create_state m conversation_id
  let st1 := { st with
    messages := st.messages ++ [{ role := "assistant", content := INITIAL_GREETING }] }
  (updateConv m1 conversation_id st1, INITIAL_GREETING)

/-- `ChatManager._format_chat_history` (lines 64-68). -/
def format_chat_history (messages : List Message) : String :=
  pyJoin "\n" (messages.map (fun msg => msg.role ++ ": " ++ msg.content))

/-- The report lines assembled by `ChatManager._format_judgment_report`
(lines 70-90), in order. -/
def report_lines (decision : JudgeDecision) : List String :=
  ["[최종 판정 결과]",
   "- 위반유형: " ++ pyJoin ", " decision.violation_type,
   "- 중대성(severity): " ++ toString decision.severity,
   "- 레이블: " ++ decision.severity_label,
   "- 권고조치:"] ++
  decision.recommended_actions.map (fun action => "  • " ++ action) ++
  ["- 사유(rationale):",
   "  " ++ decision.rationale,
   "- 관련 규정(policy_links):"] ++
  (decision.policy_links.map (fun link =>
    ["  • 문서: " ++ link.doc_id ++ ", 조항: " ++ link.«section»,
     "    - 근거 문장: \x27" ++ link.sentence ++ "\x27"])).flatten ++
  ["- confidence: " ++ fmt2 decision.confidence,
   "- needs_more_evidence: " ++ pyBoolStr decision.needs_more_evidence]

/-- `ChatManager._format_judgment_report` (lines 70-90). -/
def format_judgment_report (decision : JudgeDecision) : String :=
  pyJoin "\n" (report_lines decision)

/-- The mismatch disclaimer text of `ChatManager.process_message`
(line 130), naming the requested and the retrieved document. -/
def chatDisclaimer (requested retrieved : String) : String :=
  "참고: 요청하신 \x27" ++ requested ++ "\x27 문서를 찾지 못했습니다. 대신 검색된 \x27" ++
    retrieved ++ "\x27 문서를 기반으로 답변합니다.\n\n"

/-- The mismatch disclaimer text of `ChatManager.make_judgment`
(line 180), phrased for the judgment context. -/
def judgeDisclaimer (requested retrieved : String) : String :=
  "참고: 사용자가 대화 중 \x27" ++ requested ++ "\x27 문서를 요청했지만, 판정은 검색된 \x27" ++
    retrieved ++ "\x27 문서를 기반으로 이루어졌습니다.\n\n"

/-- The guard `if requested_doc_id and retrieved_doc_id and
requested_doc_id not in retrieved_doc_id` of `process_message`
(line 129), with Python truthiness (`None` and `""` falsy) and substring
`in`; produces the chat disclaimer or the empty string. -/
def pm_warning (requested retrieved : Option String) : String :=
  if pyTruthy requested && pyTruthy retrieved &&
      !(pyIn (requested.getD "") (retrieved.getD "")) then
    chatDisclaimer (requested.getD "") (retrieved.getD "")
  else ""

/-- The same guard in `make_judgment` (line 179) with the judgment
phrasing. -/
def mj_warning (requested retrieved : Option String) : String :=
  if pyTruthy requested && pyTruthy retrieved &&
      !(pyIn (requested.getD "") (retrieved.getD "")) then
    judgeDisclaimer (requested.getD "") (retrieved.getD "")
  else ""

/-- The requested-document scan of `make_judgment` (lines 166-171):
walk all messages in order and keep the last truthy extraction from a
user-role message. -/
def lastUserDoc (messages : List Message) : Option String :=
  messages.foldl
    (fun acc msg =>
      if msg.role == "user" then
        match extract_doc_id_from_message msg.content with
        | some d => some d
        | none => acc
      else acc)
    none

/-- The policy context retrieved by `make_judgment` (lines 173-174):
query is the newline-join of every message content, filtered by the
last requested document. -/
def mj_policy_context (vectorstore : Option Sim) (messages : List Message) : String :=
  RAGRetriever.get_context vectorstore
    (pyJoin "\n" (messages.map (fun m => m.content)))
    (lastUserDoc messages) 2000

/-- The warning computed by `make_judgment` (lines 176-180) from the
conversation. -/
def mj_warning_of (vectorstore : Option Sim) (messages : List Message) : String :=
  mj_warning (lastUserDoc messages)
    (extract_doc_id_from_context (mj_policy_context vectorstore messages))

/-- The structured-output prompt of `make_judgment` (lines 182-188):
full transcript, the fixed evidence label, the (possibly
disclaimer-prefixed) policy context, and the schema text. -/
def mj_prompt (vectorstore : Option Sim) (schema_json : String)
    (messages : List Message) : String :=
  JUDGE_PROMPT_TEMPLATE_fmt (format_chat_history messages)
    "대화 내용에서 증거 수집"
    (mj_warning_of vectorstore messages ++ mj_policy_context vectorstore messages)
    schema_json

/-- The fixed Korean error string of the judgment fallback (line 209),
with the exception text appended by the f-string. -/
def judge_error_msg (e : String) : String :=
  "판정 결과를 처리하는 중 오류가 발생했습니다: " ++ e

/-- `ChatManager.make_judgment` (lines 158-211) at the level of one
conversation state.  `judgeOracle` models the strict-JSON oracle call
composed with `json.loads` (`Except.error` = `JSONDecodeError`); its
result is validated against the `JudgeDecision` schema.  On success the
report (disclaimer-prefixed when a mismatch warning exists) is appended
and returned; on parse or validation failure the fixed error message is
appended and returned, with no retry. -/
def make_judgment (vectorstore : Option Sim)
    (judgeOracle : String → Except String JValue) (schema_json : String)
    (st : ConversationState) : ConversationState × String :=
  let warning := mj_warning_of vectorstore st.messages
  match (judgeOracle (mj_prompt vectorstore schema_json st.messages)).bind
      validateJudgeDecision with
  | Except.ok decision =>
      let report := format_judgment_report decision
      let final_report := if warning == "" then report else warning ++ report
      ({ st with messages := st.messages ++ [{ role := "assistant", content := final_report }] },
       final_report)
  | Except.error e =>
      let error_message := judge_error_msg e
      ({ st with messages := st.messages ++ [{ role := "assistant", content := error_message }] },
       error_message)

/-- The fixed nudge appended to the reply once `turn_count >= 3`
(line 152). -/
def NUDGE : String :=
  "\n\n충분한 정보가 수집된 경우, 다음 단계로 최종 판정을 요청할 수 있습니다. 판정을 원하시면 \x27판정 요청\x27이라고 말씀해주세요."

/-- The fixed tail of the conversational prompt (lines 132-139) after
the optional warning. -/
def pm_prompt_body (chat_history policy_context message : String) : String :=
  "이전 대화 내용:\n" ++ chat_history ++ "\n\n" ++
  "관련 정책 및 규정:\n" ++ policy_context ++ "\n\n" ++
  "마지막 사용자 메시지:\n" ++ message ++ "\n\n" ++
  "위 맥락을 고려하여 적절한 응답을 제공해주세요.(만약 \x27참고\x27 메시지가 있다면, 해당 내용을 반드시 답변에 포함하여 사용자에게 알려주세요.)"

/-- The full `context_prompt` of `process_message` (lines 122-139),
built from the already-updated message list `messages1` (user message
appended) and the incoming message. -/
def pm_context_prompt (vectorstore : Option Sim) (messages1 : List Message)
    (message : String) : String :=
  let requested := extract_doc_id_from_message message
  let policy_context := RAGRetriever.get_context vectorstore message requested 2000
  let retrieved := extract_doc_id_from_context policy_context
  pm_warning requested retrieved ++
    pm_prompt_body (format_chat_history messages1) policy_context message

/-- `ChatManager.process_message` (lines 108-156) at the level of one
conversation state: append the user message, bump the turn counter,
short-circuit to `make_judgment` when the message contains a judgment
trigger, otherwise retrieve context, build the prompt, call the
free-text oracle, append the nudge once `turn_count >= 3`, append the
assistant reply and return it. -/
def process_message (vectorstore : Option Sim) (chatOracle : String → String)
    (judgeOracle : String → Except String JValue) (schema_json : String)
    (st : ConversationState) (message : String) : ConversationState × String :=
  let st1 : ConversationState :=
    { messages := st.messages ++ [{ role := "user", content := message }],
      turn_count := st.turn_count + 1 }
  if pyIn "판정" message || pyIn "판단" message then
    make_judgment vectorstore judgeOracle schema_json st1
  else
    let assistant_message := chatOracle (pm_context_prompt vectorstore st1.messages message)
    let assistant_message :=
      if 3 ≤ st1.turn_count then assistant_message ++ NUDGE else assistant_message
    ({ st1 with messages := st1.messages ++ [{ role := "assistant", content := assistant_message }] },
     assistant_message)

/-- `ChatManager.process_message` at the manager level: fetch-or-create
the conversation state, run the turn, write the mutated state back.
Its return value is a single string. -/
def cm_process_message (vectorstore : Option Sim) (chatOracle : String → String)
    (judgeOracle : String → Except String JValue) (schema_json : String)
    (m : ConvMap) (conversation_id message : String) : ConvMap × String :=
  let (m1, st) := get_or_create_state m conversation_id
  let (st1, reply) := process_message vectorstore chatOracle judgeOracle schema_json st message
  (updateConv m1 conversation_id st1, reply)

/-- `Orchestrator.process_message` (src/agent/orchestrator.py lines
32-49): fetch the state (line 40, unused), call
`ChatManager.process_message`, and tuple-unpack its return value into
`(response, ready_for_judgment)` — the unpack of the returned string is
modelled by `pyUnpack2` and raises `ValueError` unless the reply is
exactly two characters long. -/
def orch_process_message (vectorstore : Option Sim) (chatOracle : String → String)
    (judgeOracle : String → Except String JValue) (schema_json : String)
    (m : ConvMap) (conversation_id message : String) :
    Except String (ConvMap × (String × String)) :=
  let (m1, _) := get_or_create_state m conversation_id
  let (m2, reply) := cm_process_message vectorstore chatOracle judgeOracle schema_json
    m1 conversation_id message
  match pyUnpack2 reply with
  | Except.ok p => Except.ok (m2, p)
  | Except.error e => Except.error e

/-! ## Lemmas about the context-assembly loop -/

/-- The blocks emitted by the loop form a prefix of the results, the
cumulative token count of that prefix stays within the budget, and when
the prefix is proper the next passage would overflow the budget. -/
theorem contextBlocks_prefix (budget : Nat) (rs : List SearchResult) :
    ∀ total : Nat, total ≤ budget →
    ∃ n, contextBlocks budget total rs = (rs.take n).map contextBlock ∧
      total + tokSum (rs.take n) ≤ budget ∧
      (n = rs.length ∨
        (n < rs.length ∧ budget < total + tokSum (rs.take (n + 1)))) := by
  induction rs with
  | nil =>
      intro total h
      exact ⟨0, by simp [contextBlocks], by simpa [tokSum], Or.inl rfl⟩
  | cons r rest ih =>
      intro total h
      by_cases hc : budget < total + pyTokenCount r.content
      · refine ⟨0, ?_, ?_, Or.inr ⟨by simp, ?_⟩⟩
        · simp [contextBlocks, hc]
        · simpa [tokSum]
        · simpa [tokSum] using hc
      · push_neg at hc
        obtain ⟨n, h1, h2, h3⟩ := ih (total + pyTokenCount r.content) hc
        refine ⟨n + 1, ?_, ?_, ?_⟩
        · simp only [contextBlocks]
          rw [if_neg (by omega)]
          simp [h1]
        · simp only [List.take_succ_cons, tokSum, List.map_cons, List.sum_cons]
          simp only [tokSum] at h2
          omega
        · rcases h3 with h3 | ⟨h3a, h3b⟩
          · exact Or.inl (by simp [h3])
          · refine Or.inr ⟨by simpa using h3a, ?_⟩
            simp only [List.take_succ_cons, tokSum, List.map_cons, List.sum_cons]
            simp only [tokSum] at h3b
            omega

/-- When every result fits the budget, the loop emits every block. -/
theorem contextBlocks_all (budget : Nat) (rs : List SearchResult) :
    ∀ total : Nat, total + tokSum rs ≤ budget →
    contextBlocks budget total rs = rs.map contextBlock := by
  induction rs with
  | nil => intro total _; simp [contextBlocks]
  | cons r rest ih =>
      intro total h
      simp only [tokSum, List.map_cons, List.sum_cons] at h
      simp only [contextBlocks]
      rw [if_neg (by omega)]
      simp only [List.map_cons]
      rw [ih (total + pyTokenCount r.content) (by simp only [tokSum]; omega)]

/-- C5: for every result list and budget, the passage blocks included by
`get_context` are the blocks of a prefix of the results in their original
order, the cumulative whitespace-token count of that prefix is at most
the budget, and when a result is excluded, the first excluded result is
one whose whole inclusion would push the total over the budget — partial
inclusion never occurs. -/
theorem C5_context_budget_prefix (vectorstore : Option Sim) (query : String)
    (doc_id : Option String) (budget : Nat) :
    ∃ n,
      RAGRetriever.get_context vectorstore query doc_id budget =
        debugWrap (RAGRetriever.search vectorstore query 5 doc_id).length
          (pyJoin "\n"
            (((RAGRetriever.search vectorstore query 5 doc_id).take n).map contextBlock)) ∧
      tokSum ((RAGRetriever.search vectorstore query 5 doc_id).take n) ≤ budget ∧
      (n = (RAGRetriever.search vectorstore query 5 doc_id).length ∨
        (n < (RAGRetriever.search vectorstore query 5 doc_id).length ∧
          budget <
            tokSum ((RAGRetriever.search vectorstore query 5 doc_id).take (n + 1)))) := by
  obtain ⟨n, h1, h2, h3⟩ :=
    contextBlocks_prefix budget (RAGRetriever.search vectorstore query 5 doc_id) 0
      (Nat.zero_le _)
  refine ⟨n, ?_, by simpa using h2, by simpa using h3⟩
  simp only [RAGRetriever.get_context]
  rw [h1]

/-- C6 (amended): context assembly applies no cap of three passages —
whenever the cumulative token count of all search results fits the
budget, `get_context` renders a block for every one of the up-to-`k = 5`
results. -/
theorem C6_no_three_passage_cap (vectorstore : Option Sim) (query : String)
    (doc_id : Option String) (budget : Nat)
    (h : tokSum (RAGRetriever.search vectorstore query 5 doc_id) ≤ budget) :
    RAGRetriever.get_context vectorstore query doc_id budget =
      debugWrap (RAGRetriever.search vectorstore query 5 doc_id).length
        (pyJoin "\n"
          ((RAGRetriever.search vectorstore query 5 doc_id).map contextBlock)) := by
  simp only [RAGRetriever.get_context]
  rw [contextBlocks_all budget _ 0 (by simpa using h)]

/-- A similarity provider returning four short passages, for exercising
the absence of a three-passage cap. -/
def c6sim : Sim := fun _ _ _ =>
  [({ page_content := "가", source := "d1.pdf" }, 1),
   ({ page_content := "나", source := "d2.pdf" }, ⟨9, 10, by decide, by decide⟩),
   ({ page_content := "다", source := "d3.pdf" }, ⟨4, 5, by decide, by decide⟩),
   ({ page_content := "라", source := "d4.pdf" }, ⟨7, 10, by decide, by decide⟩)]

/-- C6 counterexample: with four within-budget results, the formatted
context of `get_context` carries four passage blocks, not at most three. -/
theorem C6_counterexample :
    (contextBlocks 2000 0 (RAGRetriever.search (some c6sim) "질의" 5 none)).length = 4 ∧
    ¬ (contextBlocks 2000 0 (RAGRetriever.search (some c6sim) "질의" 5 none)).length ≤ 3 ∧
    RAGRetriever.get_context (some c6sim) "질의" none 2000 =
      debugWrap 4
        (pyJoin "\n" (contextBlocks 2000 0 (RAGRetriever.search (some c6sim) "질의" 5 none))) := by
  refine ⟨by decide, by decide, rfl⟩

/-- C6 witness: the no-cap theorem applied to the four-passage provider;
its budget hypothesis is discharged by evaluation and all four blocks
are rendered. -/
theorem C6_witness :
    tokSum (RAGRetriever.search (some c6sim) "질의" 5 none) ≤ 2000 ∧
    RAGRetriever.get_context (some c6sim) "질의" none 2000 =
      debugWrap (RAGRetriever.search (some c6sim) "질의" 5 none).length
        (pyJoin "\n"
          ((RAGRetriever.search (some c6sim) "질의" 5 none).map contextBlock)) :=
  ⟨by decide, C6_no_three_passage_cap (some c6sim) "질의" none 2000 (by decide)⟩

/-- C3 counterexample: with the Policy Index unavailable, `get_context`
does not return the empty string — it returns the fixed debug wrapper
(whose formatted-context payload is empty). -/
theorem C3_counterexample :
    RAGRetriever.get_context none "질의" none 2000 = debugWrap 0 "" ∧
    RAGRetriever.get_context none "질의" none 2000 ≠ "" := by
  refine ⟨rfl, by decide⟩

/-- C3 (amended): if the Policy Index is unavailable, or the similarity
search yields no results, `get_context` returns the debug wrapper around
an empty formatted context (zero passage blocks), and the extracted
retrieved document id is `none`; the retrieval path is a total function
— an unavailable store short-circuits to an empty result list rather
than raising, so a retrieval failure never aborts the turn. -/
theorem C3_retrieval_failure_degrades (query : String) (doc_id : Option String)
    (max_tokens : Nat) :
    (RAGRetriever.get_context none query doc_id max_tokens = debugWrap 0 "" ∧
      extract_doc_id_from_context
        (RAGRetriever.get_context none query doc_id max_tokens) = none) ∧
    ∀ sim : Sim, RAGRetriever.search (some sim) query 5 doc_id = [] →
      RAGRetriever.get_context (some sim) query doc_id max_tokens = debugWrap 0 "" ∧
      extract_doc_id_from_context
        (RAGRetriever.get_context (some sim) query doc_id max_tokens) = none := by
  have hwrap : extract_doc_id_from_context (debugWrap 0 "") = none := by decide
  have h1 : RAGRetriever.get_context none query doc_id max_tokens = debugWrap 0 "" := by
    simp only [RAGRetriever.get_context, RAGRetriever.search]
    simp [contextBlocks, pyJoin]
  refine ⟨⟨h1, by rw [h1]; exact hwrap⟩, ?_⟩
  intro sim hs
  have h2 : RAGRetriever.get_context (some sim) query doc_id max_tokens = debugWrap 0 "" := by
    simp only [RAGRetriever.get_context]
    rw [hs]
    simp [contextBlocks, pyJoin]
  exact ⟨h2, by rw [h2]; exact hwrap⟩

/-- C3 witness: the amended theorem applied to a concrete provider with
no matching passages. -/
theorem C3_witness :
    RAGRetriever.search (some (fun _ _ _ => [])) "질의" 5 none = [] ∧
    extract_doc_id_from_context
      (RAGRetriever.get_context (some (fun _ _ _ => [])) "질의" none 2000) = none :=
  ⟨rfl, ((C3_retrieval_failure_degrades "질의" none 2000).2 (fun _ _ _ => []) rfl).2⟩

/-! ## Lemmas about document-reference extraction -/

theorem String.mk_ne_empty_of_ne_nil {l : List Char} (h : l ≠ []) : String.mk l ≠ "" := by
  intro he
  exact h (congrArg String.data he)

theorem alt1At_ne_empty {cs : List Char} {g : String} (h : alt1At cs = some g) : g ≠ "" := by
  match cs with
  | [] => simp [alt1At] at h
  | c :: rest =>
      simp only [alt1At] at h
      split at h
      · split at h
        · split at h
          · rename_i hcond
            simp only [Bool.and_eq_true, decide_eq_true_eq] at hcond
            cases h
            exact String.mk_ne_empty_of_ne_nil (by
              intro hnil
              rw [hnil] at hcond
              simp at hcond)
          · exact absurd h (by simp)
        · exact absurd h (by simp)
      · exact absurd h (by simp)

theorem alt2At_ne_empty {cs : List Char} {g : String} (h : alt2At cs = some g) : g ≠ "" := by
  match cs with
  | [] => simp [alt2At] at h
  | c :: rest =>
      simp only [alt2At] at h
      split at h
      · split at h
        · split at h
          · rename_i hcond
            simp only [Bool.and_eq_true, Bool.not_eq_true', List.isEmpty_eq_false] at hcond
            cases h
            exact String.mk_ne_empty_of_ne_nil (by
              intro hnil
              rw [hnil] at hcond
              simp at hcond)
          · exact absurd h (by simp)
        · exact absurd h (by simp)
      · exact absurd h (by simp)

theorem alt3At_ne_empty {cs : List Char} {g : String} (h : alt3At cs = some g) : g ≠ "" := by
  unfold alt3At at h
  split at h
  · rename_i n hlast
    have hmem := List.mem_of_mem_getLast? hlast
    have hvalid : alt3Valid cs n = true := (List.mem_filter.mp hmem).2
    simp only [alt3Valid, Bool.and_eq_true, decide_eq_true_eq, beq_iff_eq] at hvalid
    obtain ⟨⟨hn1, _⟩, htake⟩ := hvalid
    have h4 : 4 ≤ (cs.drop n).length := by
      have hlen := congrArg List.length htake
      simp only [pdfSuffix, List.length_take, List.length_cons, List.length_nil] at hlen
      omega
    cases h
    apply String.mk_ne_empty_of_ne_nil
    intro hnil
    have hlen2 := congrArg List.length hnil
    simp only [List.length_take, List.length_drop, List.length_nil] at hlen2 h4
    omega
  · exact absurd h (by simp)

theorem altsAt_ne_empty {cs : List Char} {g : String} (h : altsAt cs = some g) : g ≠ "" := by
  unfold altsAt at h
  split at h
  · rename_i h1
    cases h
    exact alt1At_ne_empty h1
  · split at h
    · rename_i h2
      cases h
      exact alt2At_ne_empty h2
    · exact alt3At_ne_empty h

theorem reSearchDoc_ne_empty : ∀ {cs : List Char} {g : String},
    reSearchDoc cs = some g → g ≠ "" := by
  intro cs
  induction cs with
  | nil => intro g h; simp [reSearchDoc] at h
  | cons c rest ih =>
      intro g h
      unfold reSearchDoc at h
      split at h
      · rename_i h1
        cases h
        exact altsAt_ne_empty h1
      · exact ih h

theorem extract_doc_id_from_message_ne_empty {m : String} {g : String}
    (h : extract_doc_id_from_message m = some g) : g ≠ "" :=
  reSearchDoc_ne_empty h

theorem lastUserDoc_ne_empty {msgs : List Message} {g : String}
    (h : lastUserDoc msgs = some g) : g ≠ "" := by
  unfold lastUserDoc at h
  suffices hgen : ∀ (acc : Option String), (∀ x, acc = some x → x ≠ "") →
      msgs.foldl (fun acc msg =>
        if msg.role == "user" then
          match extract_doc_id_from_message msg.content with
          | some d => some d
          | none => acc
        else acc) acc = some g → g ≠ "" by
    exact hgen none (by simp) h
  clear h
  induction msgs with
  | nil => intro acc hacc h; exact hacc g h
  | cons m rest ih =>
      intro acc hacc h
      simp only [List.foldl_cons] at h
      refine ih _ ?_ h
      intro x
      split
      · split
        · rename_i hext
          intro hx
          cases hx
          exact extract_doc_id_from_message_ne_empty hext
        · exact hacc x
      · exact hacc x

/-- C7 counterexample: the precedence is not global.  In
`"기타" 그리고 "report.pdf"` a quoted `.pdf` name is present (third
conjunct), yet the extractor returns the earlier plain quoted string;
in `report.pdf 그리고 "기타"` a quoted string is present, yet the
extractor returns the earlier bare `.pdf` token. -/
theorem C7_counterexample :
    extract_doc_id_from_message "\"기타\" 그리고 \"report.pdf\"" = some "기타" ∧
    extract_doc_id_from_message "report.pdf 그리고 \"기타\"" = some "report.pdf" ∧
    pyIn "\"report.pdf\"" "\"기타\" 그리고 \"report.pdf\"" = true ∧
    pyIn "\"기타\"" "report.pdf 그리고 \"기타\"" = true := by
  refine ⟨by decide, by decide, by decide, by decide⟩

/-- C7 (amended): the extractor scans start positions left to right and
returns the first position where any alternative matches; the
quoted-pdf > quoted-string > bare-pdf precedence applies only among
alternatives starting at the same position.  In particular, for
`입력 "report.pdf" 그리고 "기타"` the extractor returns `report.pdf`. -/
theorem C7_precedence_per_position :
    extract_doc_id_from_message "입력 \"report.pdf\" 그리고 \"기타\"" = some "report.pdf" ∧
    (∀ (cs : List Char) (g : String), alt1At cs = some g → altsAt cs = some g) ∧
    (∀ (cs : List Char) (g : String), alt1At cs = none → alt2At cs = some g →
      altsAt cs = some g) ∧
    (∀ (cs : List Char) (g : String), alt1At cs = none → alt2At cs = none →
      alt3At cs = some g → altsAt cs = some g) ∧
    (∀ (c : Char) (cs : List Char) (g : String), altsAt (c :: cs) = some g →
      reSearchDoc (c :: cs) = some g) ∧
    (∀ (c : Char) (cs : List Char), altsAt (c :: cs) = none →
      reSearchDoc (c :: cs) = reSearchDoc cs) := by
  refine ⟨by decide, ?_, ?_, ?_, ?_, ?_⟩
  · intro cs g h1
    simp [altsAt, h1]
  · intro cs g h1 h2
    simp [altsAt, h1, h2]
  · intro cs g h1 h2 h3
    simp [altsAt, h1, h2, h3]
  · intro c cs g h
    simp [reSearchDoc, h]
  · intro c cs h
    simp [reSearchDoc, h]

/-- C7 witness: the per-position precedence facts instantiated on
concrete inputs — at a position where the quoted-pdf alternative
matches it wins, and at a position where only the plain-quoted
alternative matches it wins. -/
theorem C7_witness :
    alt1At "\"a.pdf\" x".data = some "a.pdf" ∧
    altsAt "\"a.pdf\" x".data = some "a.pdf" ∧
    alt1At "\"기타\" x".data = none ∧
    alt2At "\"기타\" x".data = some "기타" ∧
    altsAt "\"기타\" x".data = some "기타" :=
  ⟨by decide, C7_precedence_per_position.2.1 _ _ (by decide), by decide, by decide,
    C7_precedence_per_position.2.2.1 _ _ (by decide) (by decide)⟩

/-! ## Lemmas about the conversation-state store -/

/-- Writing a present key back and reading it again yields the new state. -/
theorem lookupConv_updateConv_self (m : ConvMap) (id : String)
    (st : ConversationState) (h : (lookupConv m id).isSome) :
    lookupConv (updateConv m id st) id = some st := by
  induction m with
  | nil => simp [lookupConv] at h
  | cons p rest ih =>
      by_cases hp : p.1 = id
      · simp [updateConv, lookupConv, hp]
      · have hι : (p.1 == id) = false := by simpa using hp
        simp only [updateConv, hι, Bool.false_eq_true, if_false]
        have h2 : (lookupConv rest id).isSome := by
          simpa [lookupConv, List.find?, hι] using h
        simpa [lookupConv, List.find?, hι] using ih h2

/-- Writing one key leaves every other key unchanged. -/
theorem lookupConv_updateConv_ne (m : ConvMap) (id id2 : String)
    (st : ConversationState) (h : id2 ≠ id) :
    lookupConv (updateConv m id st) id2 = lookupConv m id2 := by
  induction m with
  | nil => simp [updateConv]
  | cons p rest ih =>
      by_cases hp : p.1 = id
      · have h2 : (id == id2) = false := by
          simp only [beq_eq_false_iff_ne]
          exact fun hc => h hc.symm
        simp [updateConv, lookupConv, List.find?, hp, h2]
      · have hι : (p.1 == id) = false := by simpa using hp
        simp only [updateConv, hι, Bool.false_eq_true, if_false]
        by_cases hq : p.1 = id2
        · simp [lookupConv, List.find?, hq]
        · have hq2 : (p.1 == id2) = false := by simpa using hq
          simpa [lookupConv, List.find?, hq2] using ih

/-- One `start_conversation` call on an existing conversation appends
exactly the greeting to its stored messages. -/
theorem start_conversation_lookup_some (m : ConvMap) (id : String)
    (st : ConversationState) (h : lookupConv m id = some st) :
    lookupConv (start_conversation m id).1 id =
      some { st with messages :=
        st.messages ++ [{ role := "assistant", content := INITIAL_GREETING }] } := by
  simp only [start_conversation, get_or_create_state, h]
  exact lookupConv_updateConv_self m id _ (by simp [h])

/-- One `start_conversation` call on a fresh conversation creates the
two-message state with `turn_count = 0`. -/
theorem start_conversation_lookup_none (m : ConvMap) (id : String)
    (h : lookupConv m id = none) :
    lookupConv (start_conversation m id).1 id =
      some { messages := [{ role := "system", content := SYSTEM_PROMPT },
                          { role := "assistant", content := INITIAL_GREETING }],
             turn_count := 0 } := by
  simp only [start_conversation, get_or_create_state, h]
  exact lookupConv_updateConv_self _ id _ (by simp [lookupConv, List.find?])

/-- `n` further `start_conversation` calls on a stored conversation
append `n` copies of the greeting. -/
def startConversationN : Nat → ConvMap → String → ConvMap
  | 0, m, _ => m
  | n + 1, m, id => startConversationN n (start_conversation m id).1 id

/-- Iterating `start_conversation` from a stored state appends one
greeting message per call. -/
theorem startConversationN_lookup (id : String) :
    ∀ (n : Nat) (m : ConvMap) (st : ConversationState),
    lookupConv m id = some st →
    lookupConv (startConversationN n m id) id =
      some { st with messages := st.messages ++
        List.replicate n { role := "assistant", content := INITIAL_GREETING } } := by
  intro n
  induction n with
  | zero => intro m st h; simpa using h
  | succ k ih =>
      intro m st h
      have h1 := start_conversation_lookup_some m id st h
      have h2 := ih _ _ h1
      simp only [startConversationN]
      rw [h2]
      simp [List.replicate_succ]

/-- C10: every `start_conversation` call returns the fixed greeting and
appends exactly one assistant greeting message to the conversation
(leaving `turn_count` and the previously stored messages unchanged, and
every other conversation untouched); on a fresh id the resulting state
is exactly `[system prompt, greeting]` with `turn_count = 0`; the call
is not idempotent — `n + 1` calls on a fresh id leave `n + 1` greeting
messages after the system prompt. -/
theorem C10_start_conversation (m : ConvMap) (id : String) :
    (start_conversation m id).2 = INITIAL_GREETING ∧
    (∀ st : ConversationState, lookupConv m id = some st →
      lookupConv (start_conversation m id).1 id =
        some { st with messages :=
          st.messages ++ [{ role := "assistant", content := INITIAL_GREETING }] }) ∧
    (lookupConv m id = none →
      lookupConv (start_conversation m id).1 id =
        some { messages := [{ role := "system", content := SYSTEM_PROMPT },
                            { role := "assistant", content := INITIAL_GREETING }],
               turn_count := 0 }) ∧
    (∀ id2, id2 ≠ id →
      lookupConv (start_conversation m id).1 id2 = lookupConv m id2) ∧
    (lookupConv m id = none → ∀ n : Nat,
      lookupConv (startConversationN (n + 1) m id) id =
        some { messages := { role := "system", content := SYSTEM_PROMPT } ::
          List.replicate (n + 1) { role := "assistant", content := INITIAL_GREETING },
               turn_count := 0 }) := by
  refine ⟨?_, ?_, ?_, ?_, ?_⟩
  · simp only [start_conversation]
  · intro st h
    exact start_conversation_lookup_some m id st h
  · intro h
    exact start_conversation_lookup_none m id h
  · intro id2 h
    simp only [start_conversation, get_or_create_state]
    cases hl : lookupConv m id with
    | some st =>
        exact lookupConv_updateConv_ne m id id2 _ h
    | none =>
        have h2 : (id == id2) = false := by
          simp only [beq_eq_false_iff_ne]
          exact fun hc => h hc.symm
        have h3 := lookupConv_updateConv_ne ((id, { messages := [{ role := "system", content := SYSTEM_PROMPT }] }) :: m) id id2
          ({ messages := [{ role := "system", content := SYSTEM_PROMPT },
                          { role := "assistant", content := INITIAL_GREETING }] }) h
        simpa [lookupConv, List.find?, h2] using h3
  · intro h n
    have h1 := start_conversation_lookup_none m id h
    have h2 := startConversationN_lookup id n _ _ h1
    simp only [startConversationN]
    rw [h2]
    simp [List.replicate_succ]

/-- C10 witness: the theorem applied to the empty store and id `"1"` —
one call creates `[system, greeting]` with `turn_count = 0`, two calls
leave two greeting messages. -/
theorem C10_witness :
    lookupConv (start_conversation [] "1").1 "1" =
      some { messages := [{ role := "system", content := SYSTEM_PROMPT },
                          { role := "assistant", content := INITIAL_GREETING }],
             turn_count := 0 } ∧
    lookupConv (startConversationN 2 [] "1") "1" =
      some { messages := [{ role := "system", content := SYSTEM_PROMPT },
                          { role := "assistant", content := INITIAL_GREETING },
                          { role := "assistant", content := INITIAL_GREETING }],
             turn_count := 0 } :=
  ⟨(C10_start_conversation [] "1").2.2.1 rfl,
   by simpa [List.replicate] using (C10_start_conversation [] "1").2.2.2.2 rfl 1⟩

/-! ## Lemmas about schema validation and the judgment engine -/

/-- Well-typed string arrays pass the `List[str]` check unchanged. -/
theorem mapM_asStr (l : List String) :
    (l.map JValue.str).mapM asStr = Except.ok l := by
  induction l with
  | nil => rfl
  | cons a rest ih =>
      rw [List.map_cons, List.mapM_cons, ih]
      rfl

/-- Well-typed policy-link objects pass the `List[PolicyLink]` check
unchanged. -/
theorem mapM_asPolicyLink (l : List PolicyLink) :
    (l.map (fun x =>
      JValue.obj [("doc_id", JValue.str x.doc_id),
                  ("section", JValue.str x.«section»),
                  ("sentence", JValue.str x.sentence)])).mapM asPolicyLink =
      Except.ok l := by
  induction l with
  | nil => rfl
  | cons a rest ih =>
      rw [List.map_cons, List.mapM_cons, ih]
      rfl

/-- Reduction of an `Except.ok` bind. -/
theorem except_ok_bind {α β ε : Type} (a : α) (f : α → Except ε β) :
    (Except.ok a >>= f) = f a := rfl

/-- `asStrList` on a well-typed string array. -/
theorem asStrList_strs (l : List String) :
    asStrList (JValue.arr (l.map JValue.str)) = Except.ok l :=
  mapM_asStr l

/-- `asPolicyLinkList` on well-typed link objects. -/
theorem asPolicyLinkList_links (l : List PolicyLink) :
    asPolicyLinkList (JValue.arr (l.map (fun x =>
      JValue.obj [("doc_id", JValue.str x.doc_id),
                  ("section", JValue.str x.«section»),
                  ("sentence", JValue.str x.sentence)]))) = Except.ok l :=
  mapM_asPolicyLink l

/-- `JudgeDecision.model_validate` accepts every decision object whose
fields are present and well-typed, whatever the numeric values. -/
theorem validate_decisionJson (vt : List String) (sev : Int) (sl : String)
    (ra : List String) (rat : String) (pl : List PolicyLink) (cf : Rat)
    (nme : Bool) :
    validateJudgeDecision (decisionJson vt sev sl ra rat pl cf nme) =
      Except.ok { violation_type := vt, severity := sev, severity_label := sl,
                  recommended_actions := ra, rationale := rat, policy_links := pl,
                  confidence := cf, needs_more_evidence := nme } := by
  simp [validateJudgeDecision, decisionJson, jGet, List.find?, except_ok_bind,
    asStrList_strs, asInt, asStr, asRat, asBool, asPolicyLinkList_links]

/-- C9: whenever the judgment oracle output fails JSON parsing or
`JudgeDecision` schema validation, `make_judgment` appends exactly one
assistant message — the fixed Korean error string naming the failure —
and returns it, without retrying; the prior messages and `turn_count`
are left unchanged, so the conversation remains eligible for a retried
judgment. -/
theorem C9_judgment_fallback (vectorstore : Option Sim)
    (judgeOracle : String → Except String JValue) (schema_json : String)
    (st : ConversationState) (e : String)
    (h : (judgeOracle (mj_prompt vectorstore schema_json st.messages)).bind
        validateJudgeDecision = Except.error e) :
    make_judgment vectorstore judgeOracle schema_json st =
      ({ st with messages := st.messages ++
          [{ role := "assistant", content := judge_error_msg e }] },
       judge_error_msg e) := by
  simp only [make_judgment, h]

/-- The failing judgment oracle used by the C9 witness: its raw output
is not JSON, so parsing raises `JSONDecodeError`. -/
def c9oracle : String → Except String JValue :=
  fun _ => Except.error "Expecting value: line 1 column 1 (char 0)"

/-- The one-message conversation state used by the C9 witness. -/
def c9st : ConversationState :=
  { messages := [{ role := "system", content := SYSTEM_PROMPT }] }

/-- C9 witness: the fallback theorem applied to a concrete non-JSON
oracle — the error message is appended once and returned, and the state
is otherwise unchanged. -/
theorem C9_witness :
    make_judgment none c9oracle "" c9st =
      ({ messages := [{ role := "system", content := SYSTEM_PROMPT },
                      { role := "assistant",
                        content := judge_error_msg "Expecting value: line 1 column 1 (char 0)" }],
         turn_count := 0 },
       judge_error_msg "Expecting value: line 1 column 1 (char 0)") :=
  C9_judgment_fallback none c9oracle "" c9st
    "Expecting value: line 1 column 1 (char 0)" rfl

/-- C4 (amended): `make_judgment`'s schema validation enforces only the
presence and the type of each `JudgeDecision` field — any integer
`severity` (in range or not) and any float `confidence` are accepted,
and such a decision takes the success branch of `make_judgment`: the
rendered report (disclaimer-prefixed when a mismatch warning exists) is
appended and returned, not the error fallback. -/
theorem C4_validation_presence_and_types_only (vt : List String) (sev : Int)
    (sl : String) (ra : List String) (rat : String) (pl : List PolicyLink)
    (cf : Rat) (nme : Bool) (vectorstore : Option Sim) (schema_json : String)
    (st : ConversationState) :
    validateJudgeDecision (decisionJson vt sev sl ra rat pl cf nme) =
      Except.ok { violation_type := vt, severity := sev, severity_label := sl,
                  recommended_actions := ra, rationale := rat, policy_links := pl,
                  confidence := cf, needs_more_evidence := nme } ∧
    make_judgment vectorstore
        (fun _ => Except.ok (decisionJson vt sev sl ra rat pl cf nme))
        schema_json st =
      (let warning := mj_warning_of vectorstore st.messages
       let report := format_judgment_report
         { violation_type := vt, severity := sev, severity_label := sl,
           recommended_actions := ra, rationale := rat, policy_links := pl,
           confidence := cf, needs_more_evidence := nme }
       let final_report := if warning == "" then report else warning ++ report
       ({ st with messages := st.messages ++
           [{ role := "assistant", content := final_report }] },
        final_report)) := by
  refine ⟨validate_decisionJson vt sev sl ra rat pl cf nme, ?_⟩
  simp only [make_judgment, Except.bind, validate_decisionJson]

/-- The out-of-range decision object of the C4 counterexample:
`severity = 7` and every field well-typed. -/
def c4json : JValue :=
  decisionJson ["배임/횡령"] 7 "임의 레이블" ["조사 필요"] "사유" []
    ⟨1, 2, by decide, by decide⟩ false

/-- The one-message conversation state of the C4 counterexample. -/
def c4st : ConversationState :=
  { messages := [{ role := "system", content := SYSTEM_PROMPT }] }

/-- C4 counterexample: an oracle decision with `severity = 7` — outside
0-3 — passes schema validation and is rendered as a report by
`make_judgment` instead of taking the error-fallback branch. -/
theorem C4_counterexample :
    validateJudgeDecision c4json =
      Except.ok { violation_type := ["배임/횡령"], severity := 7,
                  severity_label := "임의 레이블", recommended_actions := ["조사 필요"],
                  rationale := "사유", policy_links := [],
                  confidence := ⟨1, 2, by decide, by decide⟩, needs_more_evidence := false } ∧
    ¬ ((7 : Int) ≤ 3) ∧
    (make_judgment none (fun _ => Except.ok c4json) "" c4st).2 =
      format_judgment_report
        { violation_type := ["배임/횡령"], severity := 7,
          severity_label := "임의 레이블", recommended_actions := ["조사 필요"],
          rationale := "사유", policy_links := [],
          confidence := ⟨1, 2, by decide, by decide⟩, needs_more_evidence := false } ∧
    pyIn "[최종 판정 결과]" (make_judgment none (fun _ => Except.ok c4json) "" c4st).2 = true := by
  refine ⟨rfl, by decide, rfl, by decide⟩

/-- A decision object that omits `severity_label`, with every other
field present and well-typed. -/
def c1nolabel : JValue :=
  JValue.obj
    [("violation_type", JValue.arr [JValue.str "배임/횡령"]),
     ("severity", JValue.int 2),
     ("recommended_actions", JValue.arr [JValue.str "조사 필요"]),
     ("rationale", JValue.str "사유 요약"),
     ("policy_links", JValue.arr []),
     ("confidence", JValue.num ⟨9, 10, by decide, by decide⟩),
     ("needs_more_evidence", JValue.bool false)]

/-- C1 (amended): `make_judgment` performs no severity-label
normalization.  The rendered report always shows the oracle-supplied
`severity_label` verbatim (it is line 4 of the report for every
decision), and a decision omitting `severity_label` fails schema
validation — `make_judgment` then takes the error branch, so the label
is never filled in from the canonical severity table. -/
theorem C1_severity_label_rendered_verbatim :
    (∀ decision : JudgeDecision,
      (report_lines decision)[3]? = some ("- 레이블: " ++ decision.severity_label)) ∧
    (∀ (vectorstore : Option Sim) (schema_json : String) (st : ConversationState),
      make_judgment vectorstore (fun _ => Except.ok c1nolabel) schema_json st =
        ({ st with messages := st.messages ++
            [{ role := "assistant",
               content := judge_error_msg "Field required: severity_label" }] },
         judge_error_msg "Field required: severity_label")) := by
  constructor
  · intro decision
    rfl
  · intro vectorstore schema_json st
    have hval : validateJudgeDecision c1nolabel =
        Except.error "Field required: severity_label" := rfl
    simp only [make_judgment, Except.bind, hval]

/-- The inconsistent decision of the C1 counterexample: `severity = 2`
with an oracle-supplied label that is not the canonical label for 2. -/
def c1json : JValue :=
  decisionJson ["배임/횡령"] 2 "부정확한 레이블" ["조사 필요"] "사유 요약" []
    ⟨9, 10, by decide, by decide⟩ false

/-- The one-message conversation state of the C1 counterexample. -/
def c1st : ConversationState :=
  { messages := [{ role := "system", content := SYSTEM_PROMPT }] }

/-- C1 counterexample: for a valid decision with `severity = 2` and an
inconsistent oracle-supplied `severity_label`, the report rendered by
`make_judgment` shows the oracle label, not the canonical label for 2
from `SEVERITY_LABELS` — the engine never overwrites the label. -/
theorem C1_counterexample :
    severityLabelFor 2 = some "중대한 위반 (조사 또는 감사 필요)" ∧
    pyIn "- 레이블: 부정확한 레이블"
      (make_judgment none (fun _ => Except.ok c1json) "" c1st).2 = true ∧
    pyIn "중대한 위반 (조사 또는 감사 필요)"
      (make_judgment none (fun _ => Except.ok c1json) "" c1st).2 = false := by
  refine ⟨by decide, by decide, by decide⟩

/-- The constant free-text oracle reply used by the C2 theorem (13
characters, as any realistic assistant reply is not exactly two
characters long). -/
def c2oracle : String → String :=
  fun _ => "신고 내용을 접수했습니다"

/-- C2: `Orchestrator.process_message` does not return a
`(reply, flag)` pair — `ChatManager.process_message` returns a single
string, and the orchestrator's tuple unpack of it raises `ValueError`
for every reply that is not exactly two characters long.  Evaluated
here on a fresh conversation with a judgment-free user message and a
thirteen-character oracle reply. -/
theorem C2_orchestrator_unpack_valueerror :
    orch_process_message none c2oracle (fun _ => Except.error "unused") "" []
        "1" "회삿돈을 유용한 사례가 있습니다" =
      Except.error "ValueError: cannot unpack string of length 13 into 2 values" := by
  rfl

/-- The judgment disclaimer is never the empty string. -/
theorem judgeDisclaimer_ne_empty (a b : String) : judgeDisclaimer a b ≠ "" := by
  intro h
  have hd := congrArg String.data h
  simp only [judgeDisclaimer, String.data_append] at hd
  simp [List.append_eq_nil] at hd

/-- The chat disclaimer is never the empty string. -/
theorem chatDisclaimer_ne_empty (a b : String) : chatDisclaimer a b ≠ "" := by
  intro h
  have hd := congrArg String.data h
  simp only [chatDisclaimer, String.data_append] at hd
  simp [List.append_eq_nil] at hd

/-- With both ids extracted (hence nonempty), the `process_message`
warning is the chat disclaimer exactly when the requested id is not a
substring of the retrieved id. -/
theorem pm_warning_eq (r s : String) (hr : r ≠ "") (hs : s ≠ "") :
    pm_warning (some r) (some s) =
      if pyIn r s then "" else chatDisclaimer r s := by
  have hr2 : (r == "") = false := by simpa using hr
  have hs2 : (s == "") = false := by simpa using hs
  simp only [pm_warning, pyTruthy, Option.getD_some, hr2, hs2]
  cases hp : pyIn r s <;> simp [hp]

/-- With both ids extracted (hence nonempty), the `make_judgment`
warning is the judgment disclaimer exactly when the requested id is not
a substring of the retrieved id. -/
theorem mj_warning_eq (r s : String) (hr : r ≠ "") (hs : s ≠ "") :
    mj_warning (some r) (some s) =
      if pyIn r s then "" else judgeDisclaimer r s := by
  have hr2 : (r == "") = false := by simpa using hr
  have hs2 : (s == "") = false := by simpa using hs
  simp only [mj_warning, pyTruthy, Option.getD_some, hr2, hs2]
  cases hp : pyIn r s <;> simp [hp]

/-- C8: whenever a document id is extracted from the user message and a
top-result source id is extracted from the retrieved context, the
disclaimer — naming both ids — is prepended to the conversational
oracle prompt exactly when the requested id is not a substring of the
retrieved id (a substring match such as `A.pdf` in `A.pdf_v2` suppresses
it); the same holds in `make_judgment` for the conversation-wide
requested id: its warning is the judgment disclaimer exactly under the
same condition, and on a valid oracle decision the returned (and
appended) report is that disclaimer followed by the rendered report
exactly when the ids mismatch. -/
theorem C8_mismatch_disclaimer (vectorstore : Option Sim)
    (messages1 : List Message) (message : String) (st : ConversationState)
    (judgeOracle : String → Except String JValue) (schema_json : String)
    (decision : JudgeDecision) (r s r2 s2 : String)
    (h1 : extract_doc_id_from_message message = some r)
    (h2 : extract_doc_id_from_context
        (RAGRetriever.get_context vectorstore message (some r) 2000) = some s)
    (h3 : s ≠ "")
    (h4 : lastUserDoc st.messages = some r2)
    (h5 : extract_doc_id_from_context (mj_policy_context vectorstore st.messages) =
        some s2)
    (h6 : s2 ≠ "")
    (h7 : (judgeOracle (mj_prompt vectorstore schema_json st.messages)).bind
        validateJudgeDecision = Except.ok decision) :
    pm_context_prompt vectorstore messages1 message =
      (if pyIn r s then "" else chatDisclaimer r s) ++
        pm_prompt_body (format_chat_history messages1)
          (RAGRetriever.get_context vectorstore message (some r) 2000) message ∧
    mj_warning_of vectorstore st.messages =
      (if pyIn r2 s2 then "" else judgeDisclaimer r2 s2) ∧
    (make_judgment vectorstore judgeOracle schema_json st).2 =
      (if pyIn r2 s2 then format_judgment_report decision
       else judgeDisclaimer r2 s2 ++ format_judgment_report decision) := by
  have hr : r ≠ "" := extract_doc_id_from_message_ne_empty h1
  have hr2 : r2 ≠ "" := lastUserDoc_ne_empty h4
  have hpm : pm_context_prompt vectorstore messages1 message =
      (if pyIn r s then "" else chatDisclaimer r s) ++
        pm_prompt_body (format_chat_history messages1)
          (RAGRetriever.get_context vectorstore message (some r) 2000) message := by
    simp only [pm_context_prompt, h1, h2]
    rw [pm_warning_eq r s hr h3]
  have hmw : mj_warning_of vectorstore st.messages =
      (if pyIn r2 s2 then "" else judgeDisclaimer r2 s2) := by
    simp only [mj_warning_of, h4, h5]
    exact mj_warning_eq r2 s2 hr2 h6
  refine ⟨hpm, hmw, ?_⟩
  simp only [make_judgment, h7, hmw]
  cases hp : pyIn r2 s2
  · have hne : (judgeDisclaimer r2 s2 == "") = false := by
      simpa using judgeDisclaimer_ne_empty r2 s2
    simp [hne]
  · simp

/-- The one-passage similarity provider of the C8 witness: the top (and
only) result comes from document `B.pdf`. -/
def c8sim : Sim := fun _ _ _ =>
  [({ page_content := "규정 내용", source := "B.pdf" }, 1)]

/-- The conversation of the C8 witness: the user has explicitly
requested document `A.pdf`. -/
def c8st : ConversationState :=
  { messages := [{ role := "system", content := SYSTEM_PROMPT },
                 { role := "user", content := "\"A.pdf\" 관련 제보입니다" }] }

/-- The message list (after the user-message append) used for the chat
side of the C8 witness. -/
def c8msgs1 : List Message :=
  [{ role := "system", content := SYSTEM_PROMPT },
   { role := "user", content := "\"A.pdf\" 관련 제보입니다" }]

/-- The valid decision returned by the judgment oracle of the C8 witness. -/
def c8dec : JudgeDecision :=
  { violation_type := ["배임/횡령"], severity := 2,
    severity_label := "중대한 위반 (조사 또는 감사 필요)",
    recommended_actions := ["조사 필요"], rationale := "사유 요약",
    policy_links := [], confidence := 1, needs_more_evidence := false }

/-- The judgment oracle of the C8 witness. -/
def c8oracle : String → Except String JValue :=
  fun _ => Except.ok (decisionJson ["배임/횡령"] 2 "중대한 위반 (조사 또는 감사 필요)"
    ["조사 필요"] "사유 요약" [] 1 false)

/-- C8 witness: the disclaimer theorem applied to a conversation that
requests `A.pdf` while retrieval's top source is `B.pdf` — every
hypothesis discharged by evaluation — together with the suppression
case: a substring match (`A.pdf` in `A.pdf_v2`) yields no warning. -/
theorem C8_witness :
    pyIn "A.pdf" "B.pdf" = false ∧
    pm_warning (some "A.pdf") (some "A.pdf_v2") = "" ∧
    (pm_context_prompt (some c8sim) c8msgs1 "\"A.pdf\" 관련 제보입니다" =
      (if pyIn "A.pdf" "B.pdf" then "" else chatDisclaimer "A.pdf" "B.pdf") ++
        pm_prompt_body (format_chat_history c8msgs1)
          (RAGRetriever.get_context (some c8sim) "\"A.pdf\" 관련 제보입니다"
            (some "A.pdf") 2000)
          "\"A.pdf\" 관련 제보입니다" ∧
     mj_warning_of (some c8sim) c8st.messages =
      (if pyIn "A.pdf" "B.pdf" then "" else judgeDisclaimer "A.pdf" "B.pdf") ∧
     (make_judgment (some c8sim) c8oracle "" c8st).2 =
      (if pyIn "A.pdf" "B.pdf" then format_judgment_report c8dec
       else judgeDisclaimer "A.pdf" "B.pdf" ++ format_judgment_report c8dec)) :=
  ⟨by decide, by decide,
   C8_mismatch_disclaimer (some c8sim) c8msgs1 "\"A.pdf\" 관련 제보입니다" c8st
     c8oracle "" c8dec "A.pdf" "B.pdf" "A.pdf" "B.pdf"
     (by decide) (by decide) (by decide) (by decide) (by decide) (by decide) rfl⟩
